import Mathlib

/-!
Shallow embedding of the BeeTrail backend (`src/server.js`), a small
Express/MongoDB REST API for beekeeping field logistics.

Modelling conventions:
* Dates and timestamps are `Int` (milliseconds since the epoch), geographic
  coordinates are `ℚ`;
* each Mongo collection is a `List` of records, and each handler is a pure
  function from the request fields and the current store to a `Response`
  (HTTP status plus a flat JSON object modelled as an association list)
  and the updated store;
* external primitives the code delegates to (bcrypt hashing/compare, JWT
  signature verification, the spatial engine's spherical distance) are
  function parameters, since the spec treats them as external collaborators.
-/

namespace BeeTrail

/-- User record persisted by the credential store (mongoose `userSchema`):
`username` unique, `password` holds the bcrypt hash, `role` is one of
`beekeeper`/`admin`.  Mongo's generated `_id` is modelled as `id : Nat`. -/
structure User where
  id : Nat
  username : String
  password : String
  role : String
deriving Repr, DecidableEq

/-- Hive placement record (mongoose `hiveSchema`). -/
structure HiveLog where
  hiveId : String
  datePlaced : Int
  latitude : ℚ
  longitude : ℚ
  numColonies : Int
  dateCreated : Int
deriving Repr, DecidableEq

/-- GeoJSON point stored in a crop's `location` field: `coordinates` is the
array `[longitude, latitude]`. -/
structure GeoPoint where
  coordinates : List ℚ
deriving Repr, DecidableEq

/-- Crop calendar record (mongoose `cropSchema`). -/
structure CropEntry where
  name : String
  floweringStart : Int
  floweringEnd : Int
  recommendedHiveDensity : Int
  location : GeoPoint
  dateCreated : Int
deriving Repr, DecidableEq

/-- Signed JWT as produced by `jwt.sign(payload, secret, expiresIn 1h)`:
the embedded claims (`id`, `username`, `role`, `syncToken`) plus the
issue and expiry instants.  Signing itself is an external primitive, so the
model keeps the payload abstractly paired with the timing data. -/
structure Jwt where
  id : Nat
  username : String
  role : String
  syncToken : Int
  issuedAt : Int
  expiresAt : Int
deriving Repr, DecidableEq

/-- Value occurring in a (flat) JSON response body. -/
inductive BVal where
  | s : String → BVal
  | n : Int → BVal
  | q : ℚ → BVal
  | jwt : Jwt → BVal
  | hiveVal : HiveLog → BVal
  | hivesList : List HiveLog → BVal
  | cropVal : CropEntry → BVal
  | cropsList : List CropEntry → BVal
  | validationErrors : BVal
deriving Repr, DecidableEq

/-- HTTP response: status code plus JSON object body as key/value pairs. -/
structure Response where
  status : Nat
  body : List (String × BVal)
deriving Repr, DecidableEq

/-- Keys of a response body object. -/
def Response.keys (r : Response) : List String := r.body.map Prod.fst

/-- Looks a key up in a response body object. -/
def Response.get (r : Response) (k : String) : Option BVal :=
  (r.body.find? (fun p => p.1 == k)).map Prod.snd

/-! ### Authentication routes -/

/-- Field validation of `POST /auth/register`: `check(username).notEmpty()`,
`check(password).isLength(min 6)`, `check(role).isIn([beekeeper, admin])`. -/
def validRegister (username password role : String) : Bool :=
  username.length != 0 && password.length ≥ 6 &&
    (role == "beekeeper" || role == "admin")

/-- Handler of `POST /auth/register` (`server.js` lines 215-241).
`bcryptHash salt pw` models `bcrypt.hash(pw, salt)` with the salt from
`bcrypt.genSalt(10)`; the fresh Mongo `_id` is modelled as `users.length`. -/
def register (bcryptHash : String → String → String) (salt : String)
    (users : List User) (username password role : String) :
    Response × List User :=
  if !(validRegister username password role) then
    (⟨400, [("errors", .validationErrors)]⟩, users)
  else if users.any (fun u => u.username == username) then
    (⟨400, [("error", .s "Username already exists")]⟩, users)
  else
    (⟨201, [("message", .s "User registered successfully")]⟩,
      users ++ [⟨users.length, username, bcryptHash salt password, role⟩])

/-- Handler of `POST /auth/login` (`server.js` lines 265-296).
`compare pw hash` models `bcrypt.compare(pw, hash)`; `now` is `Date.now()`.
On success the signed token embeds `id`, `username`, `role` and
`syncToken = now`, expires one hour (3600000 ms) after issuance, and the
body is the object `\x7b token, syncToken \x7d`. -/
def login (compare : String → String → Bool) (users : List User)
    (username password : String) (now : Int) : Response :=
  if username.length = 0 || password.length = 0 then
    ⟨400, [("errors", .validationErrors)]⟩
  else
    match users.find? (fun u => u.username == username) with
    | none => ⟨400, [("error", .s "Invalid credentials")]⟩
    | some user =>
      if !(compare password user.password) then
        ⟨400, [("error", .s "Invalid credentials")]⟩
      else
        ⟨200, [("token", .jwt ⟨user.id, user.username, user.role, now,
                  now, now + 3600000⟩),
               ("syncToken", .n now)]⟩

/-! ### Hive log routes -/

/-- Field validation of `POST /api/hives`: `hiveId` non-empty, `latitude`
in `[-90, 90]`, `longitude` in `[-180, 180]`, `numColonies ≥ 1`
(`datePlaced` arrives already parsed from its ISO-8601 form). -/
def validHive (hiveId : String) (latitude longitude : ℚ) (numColonies : Int) :
    Bool :=
  hiveId.length != 0 &&
    (-90 ≤ latitude && latitude ≤ 90) &&
    (-180 ≤ longitude && longitude ≤ 180) &&
    1 ≤ numColonies

/-- Handler of `POST /api/hives` (`server.js` lines 319-350): validates the
fields, rejects a duplicate `hiveId` with 400, otherwise saves the record
with `dateCreated` defaulted to the server clock `now`. -/
def addHive (hives : List HiveLog) (hiveId : String) (datePlaced : Int)
    (latitude longitude : ℚ) (numColonies : Int) (now : Int) :
    Response × List HiveLog :=
  if !(validHive hiveId latitude longitude numColonies) then
    (⟨400, [("errors", .validationErrors)]⟩, hives)
  else if hives.any (fun h => h.hiveId == hiveId) then
    (⟨400, [("error", .s "hiveId must be unique")]⟩, hives)
  else
    let hive : HiveLog :=
      ⟨hiveId, datePlaced, latitude, longitude, numColonies, now⟩
    (⟨201, [("message", .s "Hive log added successfully"),
            ("hive", .hiveVal hive)]⟩,
      hives ++ [hive])

/-- Descending order on `datePlaced` used by `sort (datePlaced : -1)`. -/
def hiveDescOrder (a b : HiveLog) : Prop := b.datePlaced ≤ a.datePlaced

instance : DecidableRel hiveDescOrder := fun _ _ => Int.decLe _ _

instance : IsTotal HiveLog hiveDescOrder :=
  ⟨fun a b => le_total b.datePlaced a.datePlaced⟩

instance : IsTrans HiveLog hiveDescOrder :=
  ⟨fun _ _ _ h1 h2 => le_trans h2 h1⟩

/-- Date-window predicate built by the `GET /api/hives` handler: `$gte`
when `startDate` is supplied, `$lte` when `endDate` is (both inclusive). -/
def hiveMatches (startDate endDate : Option Int) (h : HiveLog) : Bool :=
  (match startDate with | none => true | some s => s ≤ h.datePlaced) &&
  (match endDate with | none => true | some e => h.datePlaced ≤ e)

/-- Records matching the date filter (`Hive.find(queryObj)`). -/
def hivesQuery (hives : List HiveLog) (startDate endDate : Option Int) :
    List HiveLog :=
  hives.filter (hiveMatches startDate endDate)

/-- Matching records sorted by `datePlaced` descending; the database sorts
before `skip`/`limit` are applied. -/
def sortedMatching (hives : List HiveLog) (startDate endDate : Option Int) :
    List HiveLog :=
  List.insertionSort hiveDescOrder (hivesQuery hives startDate endDate)

/-- `skip((page - 1) * limit).limit(limit)` applied to the sorted matches. -/
def pageSlice (hives : List HiveLog) (startDate endDate : Option Int)
    (page limit : Nat) : List HiveLog :=
  ((sortedMatching hives startDate endDate).drop ((page - 1) * limit)).take
    limit

/-- Defaulting of pagination parameters: `parseInt(x) || d` yields `d` both
when the parameter is absent and when it parses to `0`. -/
def pageOf (v : Option Nat) (d : Nat) : Nat :=
  match v with
  | none => d
  | some 0 => d
  | some (n + 1) => n + 1

/-- Handler of `GET /api/hives` (`server.js` lines 386-409): date filter,
descending sort, `skip`/`limit` pagination, plus `total` (matching count),
`page`, and `pages = Math.ceil(count / limit)`. -/
def listHives (hives : List HiveLog) (startDate endDate : Option Int)
    (pageOpt limitOpt : Option Nat) : Response :=
  let page := pageOf pageOpt 1
  let limit := pageOf limitOpt 10
  let count := (hivesQuery hives startDate endDate).length
  ⟨200, [("hives", .hivesList (pageSlice hives startDate endDate page limit)),
         ("total", .n count),
         ("page", .n page),
         ("pages", .n ((count + limit - 1) / limit))]⟩

/-! ### Crop calendar routes -/

/-- Latitude of a stored crop: `location.coordinates[1]`. -/
def cropLat (c : CropEntry) : ℚ := c.location.coordinates.getD 1 0

/-- Longitude of a stored crop: `location.coordinates[0]`. -/
def cropLon (c : CropEntry) : ℚ := c.location.coordinates.getD 0 0

/-- Field validation of `POST /api/crops`: `name` non-empty, coordinates in
range, `recommendedHiveDensity ≥ 1` (the two dates arrive already parsed
from their ISO-8601 forms). -/
def validCrop (name : String) (latitude longitude : ℚ) (density : Int) :
    Bool :=
  name.length != 0 &&
    (-90 ≤ latitude && latitude ≤ 90) &&
    (-180 ≤ longitude && longitude ≤ 180) &&
    1 ≤ density

/-- Handler of `POST /api/crops` (`server.js` lines 446-479): after field
validation it rejects `floweringStart ≥ floweringEnd` with 400, otherwise
saves the entry with `location.coordinates = [longitude, latitude]` and
`dateCreated` defaulted to the server clock `now`. -/
def addCrop (crops : List CropEntry) (name : String)
    (floweringStart floweringEnd : Int) (latitude longitude : ℚ)
    (density : Int) (now : Int) : Response × List CropEntry :=
  if !(validCrop name latitude longitude density) then
    (⟨400, [("errors", .validationErrors)]⟩, crops)
  else if floweringEnd ≤ floweringStart then
    (⟨400, [("error", .s "floweringStart must be before floweringEnd")]⟩,
      crops)
  else
    let crop : CropEntry :=
      ⟨name, floweringStart, floweringEnd, density,
        ⟨[longitude, latitude]⟩, now⟩
    (⟨201, [("message", .s "Crop entry added successfully"),
            ("crop", .cropVal crop)]⟩,
      crops ++ [crop])

/-- Query validation of `GET /api/crops/nearby`: `latitude` and `longitude`
required and in range, `radius` optional but at least 1 when supplied
(`query(radius).optional().isFloat(min 1)`). -/
def nearbyValid (latitude longitude : ℚ) (radiusOpt : Option ℚ) : Bool :=
  (-90 ≤ latitude && latitude ≤ 90) &&
    (-180 ≤ longitude && longitude ≤ 180) &&
    (match radiusOpt with | none => true | some r => 1 ≤ r)

/-- Filter the `Crop.find` query applies to a stored entry: spherical
distance from the centre at most `radius * 1000` metres (`$near` with
`$maxDistance: radius * 1000`), and the flowering window containing the
query date (`floweringStart $lte date`, `floweringEnd $gte date`).
`dist lon1 lat1 lon2 lat2` is the spatial engine's spherical distance in
metres between two GeoJSON points. -/
def nearbyFilter (dist : ℚ → ℚ → ℚ → ℚ → ℚ) (latitude longitude radius : ℚ)
    (queryDate : Int) (c : CropEntry) : Bool :=
  decide (dist longitude latitude (cropLon c) (cropLat c) ≤ radius * 1000) &&
    decide (c.floweringStart ≤ queryDate) &&
    decide (queryDate ≤ c.floweringEnd)

/-- Radius actually queried with: `parseFloat(radius) || 100`, i.e. the
supplied value when present (validation has already forced it ≥ 1, so it
is never the falsy 0) and 100 km otherwise. -/
def effectiveRadius (radiusOpt : Option ℚ) : ℚ :=
  match radiusOpt with
  | none => 100
  | some r => r

/-- Handler of `GET /api/crops/nearby` (`server.js` lines 516-550): after
query validation, `radius` defaults to 100 km and `date` to the current
server date `today`; an empty result is still a 200 with an explanatory
message and an empty `crops` array. -/
def findNearby (dist : ℚ → ℚ → ℚ → ℚ → ℚ) (crops : List CropEntry)
    (latitude longitude : ℚ) (radiusOpt : Option ℚ) (dateOpt : Option Int)
    (today : Int) : Response :=
  if !(nearbyValid latitude longitude radiusOpt) then
    ⟨400, [("errors", .validationErrors)]⟩
  else
    let radius := effectiveRadius radiusOpt
    let queryDate := dateOpt.getD today
    let found :=
      crops.filter (nearbyFilter dist latitude longitude radius queryDate)
    if found.length = 0 then
      ⟨200, [("message", .s "No crops found nearby for the given date"),
             ("crops", .cropsList [])]⟩
    else
      ⟨200, [("crops", .cropsList found)]⟩

/-! ### Authentication middleware -/

/-- Splitting a string at every occurrence of a separator character, with
the semantics of JavaScript `String.prototype.split`: the empty string
yields `[""]`, and adjacent separators yield empty fields. -/
def splitOnChar (sep : Char) : List Char → List (List Char)
  | [] => [[]]
  | c :: rest =>
    if c = sep then [] :: splitOnChar sep rest
    else
      match splitOnChar sep rest with
      | [] => [[c]]
      | w :: ws => (c :: w) :: ws

/-- Bearer-token extraction of `authenticateToken` (`server.js` 68-78):
`authHeader && authHeader.split(' ')[1]`, with both a missing/empty header
and a missing/empty second word yielding a falsy token. -/
def extractToken (header : Option String) : Option String :=
  match header with
  | none => none
  | some h =>
    if h.length = 0 then none
    else
      match (splitOnChar ' ' h.data).get? 1 with
      | none => none
      | some t => if t.length = 0 then none else some (String.mk t)

/-- Protected route: `authenticateToken` runs before the handler, answering
401 when no bearer token is present and 403 when `jwt.verify` rejects it
(`verify` models `jwt.verify(token, secret)`, `none` meaning malformed,
expired or bad signature); only on success does the handler body run. -/
def protectedRoute {σ : Type} (verify : String → Option Jwt)
    (header : Option String) (handler : Jwt → σ → σ × Response) (st : σ) :
    σ × Response :=
  match extractToken header with
  | none => (st, ⟨401, [("error", .s "Access token required")]⟩)
  | some t =>
    match verify t with
    | none => (st, ⟨403, [("error", .s "Invalid token")]⟩)
    | some user => handler user st

/-! ### CSV export -/

/-- Column order of `GET /export/crops` (`server.js` line 607). -/
def cropCsvFields : List String :=
  ["name", "floweringStart", "floweringEnd", "recommendedHiveDensity",
   "latitude", "longitude", "dateCreated"]

/-- Row built for one crop by `GET /export/crops` (`server.js` 598-606):
the stored GeoJSON point is flattened back into separate latitude and
longitude columns via `coordinates[1]` and `coordinates[0]`. -/
def exportCropRow (c : CropEntry) : List (String × BVal) :=
  [("name", .s c.name),
   ("floweringStart", .n c.floweringStart),
   ("floweringEnd", .n c.floweringEnd),
   ("recommendedHiveDensity", .n c.recommendedHiveDensity),
   ("latitude", .q (cropLat c)),
   ("longitude", .q (cropLon c)),
   ("dateCreated", .n c.dateCreated)]

/-- Data rows of the crop CSV export, one per stored entry. -/
def exportCropsCsv (crops : List CropEntry) : List (List (String × BVal)) :=
  crops.map exportCropRow

/-!
## Auxiliary lemmas

Shared facts about pagination arithmetic used by several claims.
-/

/-- Computation rule for `Math.ceil(count / limit)`: the integer form
`(m + k - 1) / k` used in the embedding is the ceiling of the rational
quotient. -/
theorem add_sub_one_div_eq_ceil (m k : Nat) (hk : 0 < k) :
    (m + k - 1) / k = ⌈(m : ℚ) / (k : ℚ)⌉₊ := by
  have hkq : (0 : ℚ) < (k : ℚ) := by exact_mod_cast hk
  rcases Nat.eq_zero_or_pos m with hm | hm
  · subst hm
    rw [Nat.div_eq_of_lt (by omega)]
    simp
  · set q := (m + k - 1) / k with hq
    have hq1 : 1 ≤ q := (Nat.one_le_div_iff hk).mpr (by omega)
    have hub : m + k - 1 < (q + 1) * k :=
      (Nat.div_lt_iff_lt_mul hk).mp (by omega)
    have hub' : m + k - 1 < q * k + k := by
      have : (q + 1) * k = q * k + k := by ring
      omega
    have hlb : q * k ≤ m + k - 1 := by
      rw [hq]; exact Nat.div_mul_le_self _ _
    have hmle : m ≤ q * k := by omega
    have hkqk : k ≤ q * k := Nat.le_mul_of_pos_left k hq1
    have hsub : (q - 1) * k = q * k - k := Nat.sub_one_mul q k
    have hlt : (q - 1) * k < m := by omega
    symm
    rw [Nat.ceil_eq_iff (by omega)]
    refine ⟨?_, ?_⟩
    · rw [lt_div_iff₀ hkq]
      exact_mod_cast hlt
    · rw [div_le_iff₀ hkq]
      exact_mod_cast hmle

/-- Helper: the element at index `i` survives a `skip`/`take` slice that
skips `i / k * k` elements and keeps `k`. -/
theorem getElem_mem_drop_take {α : Type} (l : List α) (i k : Nat)
    (hk : 0 < k) (hi : i < l.length) :
    l[i] ∈ (l.drop (i / k * k)).take k := by
  have hdm : i / k * k ≤ i := Nat.div_mul_le_self i k
  have hmod : i - i / k * k < k := by
    have h1 := Nat.div_add_mod i k
    have h2 := Nat.mod_lt i hk
    have h3 : i / k * k = k * (i / k) := Nat.mul_comm _ _
    omega
  generalize hgen : i / k * k = d at hdm hmod ⊢
  clear hgen
  have hdl : i - d < (l.drop d).length := by
    rw [List.length_drop]; omega
  have htl : i - d < ((l.drop d).take k).length := by
    rw [List.length_take]; omega
  have hmem : ((l.drop d).take k)[i - d] ∈ (l.drop d).take k :=
    List.getElem_mem htl
  rw [List.getElem_take, List.getElem_drop] at hmem
  have hidx : d + (i - d) = i := by omega
  simp only [hidx] at hmem
  exact hmem

/-- Helper: every member of a list appears on some 1-indexed page of its
`skip ((p - 1) * k)` / `take k` pagination. -/
theorem exists_page_mem {α : Type} (l : List α) (x : α) (k : Nat)
    (hk : 0 < k) (hx : x ∈ l) :
    ∃ p, 1 ≤ p ∧ x ∈ (l.drop ((p - 1) * k)).take k := by
  obtain ⟨i, hi, rfl⟩ := List.mem_iff_getElem.mp hx
  exact ⟨i / k + 1, Nat.le_add_left 1 _,
    by simpa using getElem_mem_drop_take l i k hk hi⟩

/-- Helper: a `drop`/`take` slice of a pairwise-ordered list stays
pairwise ordered. -/
theorem pairwise_drop_take {α : Type} {r : α → α → Prop} {l : List α}
    (h : l.Pairwise r) (a b : Nat) : ((l.drop a).take b).Pairwise r :=
  h.sublist ((List.take_sublist _ _).trans (List.drop_sublist _ _))

/-- Helper: `pageOf` never returns 0 when its default is positive. -/
theorem pageOf_pos (v : Option Nat) (d : Nat) (hd : 0 < d) :
    0 < pageOf v d := by
  match v with
  | none => exact hd
  | some 0 => exact hd
  | some (n + 1) => exact Nat.succ_pos n

/-!
## Claims
-/

/-- C7: the two login failure modes — unknown username, and known username
with a mismatching password hash — produce identical responses (the same
400 status and the same generic `Invalid credentials` body), so an
observer cannot distinguish the two cases to enumerate usernames. -/
theorem login_failure_indistinguishable
    (compare : String → String → Bool) (users1 users2 : List User)
    (username password : String) (now1 now2 : Int)
    (hu : username.length ≠ 0) (hp : password.length ≠ 0)
    (h1 : users1.find? (fun u => u.username == username) = none)
    (u : User)
    (h2 : users2.find? (fun u => u.username == username) = some u)
    (h3 : compare password u.password = false) :
    login compare users1 username password now1 =
      login compare users2 username password now2 ∧
    login compare users1 username password now1 =
      ⟨400, [("error", .s "Invalid credentials")]⟩ := by
  have e1 : login compare users1 username password now1 =
      ⟨400, [("error", .s "Invalid credentials")]⟩ := by
    simp [login, hu, hp, h1]
  have e2 : login compare users2 username password now2 =
      ⟨400, [("error", .s "Invalid credentials")]⟩ := by
    simp [login, hu, hp, h2, h3]
  exact ⟨e1.trans e2.symm, e1⟩

/-- Concrete instance of the login-failure indistinguishability theorem:
an empty store versus a store holding `alice` with a non-matching hash. -/
theorem login_failure_indistinguishable_witness :
    login (fun p h => p == h) [] "alice" "pw" 11 =
      login (fun p h => p == h)
        [⟨7, "alice", "HASH", "beekeeper"⟩] "alice" "pw" 22 ∧
    login (fun p h => p == h) [] "alice" "pw" 11 =
      ⟨400, [("error", .s "Invalid credentials")]⟩ :=
  login_failure_indistinguishable (fun p h => p == h) []
    [⟨7, "alice", "HASH", "beekeeper"⟩] "alice" "pw" 11 22
    (by decide) (by decide) (by decide) ⟨7, "alice", "HASH", "beekeeper"⟩
    (by decide) (by decide)

/-- C2 counterexample: at a concrete successful login the 200 response
body has exactly the keys `token` and `syncToken`; the key
`issuedSyncToken` named by the claim does not occur in the body. -/
theorem login_response_key_counterexample :
    (login (fun p h => p == h) [⟨5, "alice", "pw", "beekeeper"⟩]
        "alice" "pw" 1700000000000).status = 200 ∧
    (login (fun p h => p == h) [⟨5, "alice", "pw", "beekeeper"⟩]
        "alice" "pw" 1700000000000).keys = ["token", "syncToken"] ∧
    "issuedSyncToken" ∉
      (login (fun p h => p == h) [⟨5, "alice", "pw", "beekeeper"⟩]
          "alice" "pw" 1700000000000).keys := by
  decide

/-- C2 (amended): every successful login — username found and password
hash matching — answers 200 with body keys `token` and `syncToken`, where
`syncToken` is the current server timestamp and `token` is the signed JWT
embedding the user's id, username and role together with that same
`syncToken`, expiring exactly one hour (3600000 ms) after issuance. -/
theorem login_success_spec (compare : String → String → Bool)
    (users : List User) (username password : String) (now : Int)
    (hu : username.length ≠ 0) (hp : password.length ≠ 0) (u : User)
    (hfind : users.find? (fun v => v.username == username) = some u)
    (hcmp : compare password u.password = true) :
    login compare users username password now =
      ⟨200, [("token", .jwt ⟨u.id, u.username, u.role, now, now,
                now + 3600000⟩),
             ("syncToken", .n now)]⟩ := by
  simp [login, hu, hp, hfind, hcmp]

/-- Concrete instance of the amended login-success theorem. -/
theorem login_success_spec_witness :
    login (fun p h => p == h) [⟨5, "bee", "pw123", "admin"⟩]
        "bee" "pw123" 42 =
      ⟨200, [("token", .jwt ⟨5, "bee", "admin", 42, 42, 42 + 3600000⟩),
             ("syncToken", .n 42)]⟩ :=
  login_success_spec (fun p h => p == h) [⟨5, "bee", "pw123", "admin"⟩]
    "bee" "pw123" 42 (by decide) (by decide) ⟨5, "bee", "pw123", "admin"⟩
    (by decide) (by decide)

/-- C4 counterexample: with user `bob` already registered, the request
`register("bob", "abc", "admin")` has an existing username yet is answered
with the field-validation error body rather than the
`Username already exists` conflict body, because the password is shorter
than 6 characters and field validation runs first. -/
theorem register_conflict_counterexample :
    (∃ u ∈ [(⟨0, "bob", "H", "admin"⟩ : User)], u.username = "bob") ∧
    (register (fun s p => s ++ ":" ++ p) "SALT"
        [⟨0, "bob", "H", "admin"⟩] "bob" "abc" "admin").1 =
      ⟨400, [("errors", .validationErrors)]⟩ ∧
    (register (fun s p => s ++ ":" ++ p) "SALT"
        [⟨0, "bob", "H", "admin"⟩] "bob" "abc" "admin").1 ≠
      ⟨400, [("error", .s "Username already exists")]⟩ := by
  decide

/-- C4 (amended): `register` fails with the validation error (400) iff
the username is empty, the password is shorter than 6 characters, or the
role is not in beekeeper/admin; among requests passing field validation it
fails with the conflict error (400) iff the username already exists; and
otherwise it persists the user storing the salted hash of the password —
never the plaintext — and answers 201 with no token in the body. -/
theorem register_spec (bcryptHash : String → String → String)
    (salt : String) (users : List User) (username password role : String) :
    ((register bcryptHash salt users username password role).1 =
        ⟨400, [("errors", .validationErrors)]⟩ ↔
      validRegister username password role = false) ∧
    (validRegister username password role = true →
      ((register bcryptHash salt users username password role).1 =
          ⟨400, [("error", .s "Username already exists")]⟩ ↔
        ∃ u ∈ users, u.username = username)) ∧
    (validRegister username password role = true →
      (∀ u ∈ users, u.username ≠ username) →
      (register bcryptHash salt users username password role).1.status =
        201 ∧
      "token" ∉
        (register bcryptHash salt users username password role).1.keys ∧
      (register bcryptHash salt users username password role).2 =
        users ++ [⟨users.length, username, bcryptHash salt password,
          role⟩]) := by
  by_cases hval : validRegister username password role = true
  · by_cases hex : users.any (fun u => u.username == username) = true
    · have hex' : ∃ u ∈ users, u.username = username := by simpa using hex
      refine ⟨?_, fun _ => ?_, fun _ hnone => ?_⟩
      · simp [register, hval, hex]
      · simp [register, hval, hex, hex']
      · obtain ⟨u, hu, hname⟩ := hex'
        exact absurd hname (hnone u hu)
    · have hexf : users.any (fun u => u.username == username) = false :=
        Bool.not_eq_true _ ▸ Bool.of_not_eq_true hex
      have hex' : ¬ ∃ u ∈ users, u.username = username := by
        simpa using hexf
      refine ⟨?_, fun _ => ?_, fun _ _ => ?_⟩
      · simp [register, hval, hexf]
      · simp [register, hval, hexf, hex']
      · refine ⟨?_, ?_, ?_⟩ <;>
          simp [register, hval, hexf, Response.keys]
  · have hvf : validRegister username password role = false :=
      Bool.not_eq_true _ ▸ Bool.of_not_eq_true hval
    refine ⟨?_, fun hc => absurd hc hval, fun hc => absurd hc hval⟩
    simp [register, hvf]

/-- Concrete instance of the amended register theorem: a fresh valid
registration persists the salted hash and answers 201 without a token. -/
theorem register_spec_witness :
    (register (fun s p => s ++ ":" ++ p) "SALT" [] "bob" "secret1"
        "admin").1.status = 201 ∧
    "token" ∉
      (register (fun s p => s ++ ":" ++ p) "SALT" [] "bob" "secret1"
          "admin").1.keys ∧
    (register (fun s p => s ++ ":" ++ p) "SALT" [] "bob" "secret1"
        "admin").2 = [⟨0, "bob", "SALT:secret1", "admin"⟩] :=
  (register_spec (fun s p => s ++ ":" ++ p) "SALT" [] "bob" "secret1"
      "admin").2.2 (by decide) (by decide)

/-- C6: for a crop-add request whose other fields are valid, the request
is rejected with 400 iff `floweringStart ≥ floweringEnd` (leaving the
store unchanged) and accepted with 201 iff
`floweringStart < floweringEnd`; consequently every stored crop satisfies
`floweringStart < floweringEnd`. -/
theorem addCrop_flowering_spec (crops : List CropEntry) (name : String)
    (fs fe : Int) (lat lon : ℚ) (density now : Int)
    (hv : validCrop name lat lon density = true) :
    (fe ≤ fs →
      addCrop crops name fs fe lat lon density now =
        (⟨400,
          [("error", .s "floweringStart must be before floweringEnd")]⟩,
          crops)) ∧
    (fs < fe →
      (addCrop crops name fs fe lat lon density now).1.status = 201 ∧
      (addCrop crops name fs fe lat lon density now).2 =
        crops ++ [⟨name, fs, fe, density, ⟨[lon, lat]⟩, now⟩]) ∧
    ((∀ c ∈ crops, c.floweringStart < c.floweringEnd) →
      ∀ c ∈ (addCrop crops name fs fe lat lon density now).2,
        c.floweringStart < c.floweringEnd) := by
  refine ⟨fun h => ?_, fun h => ⟨?_, ?_⟩, fun hinv c hc => ?_⟩
  · simp [addCrop, hv, h]
  · simp [addCrop, hv, not_le.mpr h]
  · simp [addCrop, hv, not_le.mpr h]
  · by_cases hord : fe ≤ fs
    · simp only [addCrop, hv, hord] at hc
      simp at hc
      exact hinv c hc
    · simp only [addCrop, hv] at hc
      simp [hord] at hc
      rcases hc with hc | rfl
      · exact hinv c hc
      · exact not_le.mp hord

/-- Concrete instances of the flowering-order theorem: one rejected and
one accepted crop-add request. -/
theorem addCrop_flowering_spec_witness :
    validCrop "Sunflower" 26 75 5 = true ∧
    addCrop [] "Sunflower" 200 100 26 75 5 999 =
      (⟨400, [("error", .s "floweringStart must be before floweringEnd")]⟩,
        []) ∧
    (addCrop [] "Sunflower" 100 200 26 75 5 999).2 =
      [⟨"Sunflower", 100, 200, 5, ⟨[75, 26]⟩, 999⟩] :=
  ⟨by decide,
    (addCrop_flowering_spec [] "Sunflower" 200 100 26 75 5 999
      (by decide)).1 (by decide),
    ((addCrop_flowering_spec [] "Sunflower" 100 200 26 75 5 999
      (by decide)).2.1 (by decide)).2⟩

/-- C9: a supplied nearby-search radius below 1 is rejected with 400 by
query validation, with a response independent of the stored crops (so the
spatial query never runs), while an absent radius makes the handler behave
exactly as with the default of 100 km. -/
theorem nearby_radius_spec (dist : ℚ → ℚ → ℚ → ℚ → ℚ) (lat lon r : ℚ)
    (dateOpt : Option Int) (today : Int) (hr : r < 1) :
    (∀ crops, findNearby dist crops lat lon (some r) dateOpt today =
        ⟨400, [("errors", .validationErrors)]⟩) ∧
    (∀ crops, findNearby dist crops lat lon none dateOpt today =
        findNearby dist crops lat lon (some 100) dateOpt today) := by
  constructor
  · intro crops
    have hval : nearbyValid lat lon (some r) = false := by
      simp [nearbyValid, not_le.mpr hr]
    simp [findNearby, hval]
  · intro crops
    have hval : nearbyValid lat lon (none : Option ℚ) =
        nearbyValid lat lon (some 100) := by
      norm_num [nearbyValid]
    have hrad : effectiveRadius (none : Option ℚ) =
        effectiveRadius (some 100) := rfl
    simp only [findNearby, hval, hrad]

/-- Concrete instance of the radius-validation theorem: radius 1/2 is
rejected with 400 even though a matching crop is stored, and the absent
radius agrees with radius 100. -/
theorem nearby_radius_spec_witness :
    findNearby (fun _ _ _ _ => 0)
        [⟨"Sunflower", 100, 200, 5, ⟨[75, 26]⟩, 0⟩] 26 75 (some (1 / 2))
        (some 150) 0 =
      ⟨400, [("errors", .validationErrors)]⟩ ∧
    findNearby (fun _ _ _ _ => 0)
        [⟨"Sunflower", 100, 200, 5, ⟨[75, 26]⟩, 0⟩] 26 75 none
        (some 150) 0 =
      findNearby (fun _ _ _ _ => 0)
        [⟨"Sunflower", 100, 200, 5, ⟨[75, 26]⟩, 0⟩] 26 75 (some 100)
        (some 150) 0 :=
  ⟨(nearby_radius_spec (fun _ _ _ _ => 0) 26 75 (1 / 2) (some 150) 0
      (by norm_num)).1 _,
   (nearby_radius_spec (fun _ _ _ _ => 0) 26 75 (1 / 2) (some 150) 0
      (by norm_num)).2 _⟩

/-- C10: on every protected endpoint a request with no bearer token is
answered 401 `Access token required`, and one whose token fails
verification (malformed, expired or bad signature) is answered 403
`Invalid token`; in both cases the response is the same for every handler
and the state is returned unchanged, so the handler body never runs and no
store operation is performed. -/
theorem authenticateToken_spec {σ : Type} (verify : String → Option Jwt)
    (header : Option String) (st : σ) :
    (extractToken header = none →
      ∀ handler : Jwt → σ → σ × Response,
        protectedRoute verify header handler st =
          (st, ⟨401, [("error", .s "Access token required")]⟩)) ∧
    (∀ t, extractToken header = some t → verify t = none →
      ∀ handler : Jwt → σ → σ × Response,
        protectedRoute verify header handler st =
          (st, ⟨403, [("error", .s "Invalid token")]⟩)) :=
  ⟨fun h handler => by simp [protectedRoute, h],
   fun t ht hv handler => by simp [protectedRoute, ht, hv]⟩

/-- Concrete instances of the middleware theorem: a missing header gives
401 and a header whose token the verifier rejects gives 403, in both
cases leaving the hive store untouched. -/
theorem authenticateToken_spec_witness :
    protectedRoute (fun _ => none) (none : Option String)
        (fun _ (s : List HiveLog) => (s, ⟨500, []⟩)) [] =
      ([], ⟨401, [("error", .s "Access token required")]⟩) ∧
    protectedRoute (fun _ => none) (some "Bearer abc")
        (fun _ (s : List HiveLog) => (s, ⟨500, []⟩)) [] =
      ([], ⟨403, [("error", .s "Invalid token")]⟩) :=
  ⟨(authenticateToken_spec (fun _ => none) none []).1 (by decide) _,
   (authenticateToken_spec (fun _ => none) (some "Bearer abc") []).2
     "abc" (by decide) rfl _⟩

/-- C8: adding a crop with latitude `lat` and longitude `lon` stores the
GeoJSON point `[lon, lat]` (longitude first), and the crop CSV export
flattens it back so the `latitude` column is `lat` and the `longitude`
column is `lon`, with exactly the documented column list — a round trip
from `(lat, lon)` through the stored point back to `(lat, lon)`. -/
theorem crop_location_roundtrip (crops : List CropEntry) (name : String)
    (fs fe : Int) (lat lon : ℚ) (density now : Int)
    (hv : validCrop name lat lon density = true) (hd : fs < fe) :
    (addCrop crops name fs fe lat lon density now).2 =
      crops ++ [⟨name, fs, fe, density, ⟨[lon, lat]⟩, now⟩] ∧
    cropLat ⟨name, fs, fe, density, ⟨[lon, lat]⟩, now⟩ = lat ∧
    cropLon ⟨name, fs, fe, density, ⟨[lon, lat]⟩, now⟩ = lon ∧
    exportCropRow ⟨name, fs, fe, density, ⟨[lon, lat]⟩, now⟩ =
      [("name", .s name), ("floweringStart", .n fs),
       ("floweringEnd", .n fe), ("recommendedHiveDensity", .n density),
       ("latitude", .q lat), ("longitude", .q lon),
       ("dateCreated", .n now)] ∧
    (exportCropRow ⟨name, fs, fe, density, ⟨[lon, lat]⟩, now⟩).map
        Prod.fst = cropCsvFields ∧
    exportCropsCsv (addCrop crops name fs fe lat lon density now).2 =
      exportCropsCsv crops ++
        [exportCropRow ⟨name, fs, fe, density, ⟨[lon, lat]⟩, now⟩] := by
  have hstore : (addCrop crops name fs fe lat lon density now).2 =
      crops ++ [⟨name, fs, fe, density, ⟨[lon, lat]⟩, now⟩] := by
    simp [addCrop, hv, not_le.mpr hd]
  refine ⟨hstore, rfl, rfl, rfl, rfl, ?_⟩
  rw [hstore]
  simp [exportCropsCsv]

/-- Concrete instance of the location round-trip theorem. -/
theorem crop_location_roundtrip_witness :
    (addCrop [] "Mustard" 10 20 27 78 3 5).2 =
      [⟨"Mustard", 10, 20, 3, ⟨[78, 27]⟩, 5⟩] ∧
    (exportCropRow ⟨"Mustard", 10, 20, 3, ⟨[78, 27]⟩, 5⟩).map Prod.fst =
      cropCsvFields :=
  ⟨(crop_location_roundtrip [] "Mustard" 10 20 27 78 3 5 (by decide)
      (by decide)).1,
   (crop_location_roundtrip [] "Mustard" 10 20 27 78 3 5 (by decide)
      (by decide)).2.2.2.2.1⟩

/-- C1: with valid query parameters, `findNearby` always answers 200 —
also when the result is empty — and its `crops` array holds exactly the
stored entries whose spherical distance from the centre is at most the
effective radius in kilometres (converted to metres) and whose flowering
window contains the query date inclusively on both ends; no entry
violating either condition is returned. -/
theorem findNearby_exact (dist : ℚ → ℚ → ℚ → ℚ → ℚ)
    (crops : List CropEntry) (lat lon : ℚ) (radiusOpt : Option ℚ)
    (dateOpt : Option Int) (today : Int)
    (hv : nearbyValid lat lon radiusOpt = true) :
    (findNearby dist crops lat lon radiusOpt dateOpt today).status = 200 ∧
    (findNearby dist crops lat lon radiusOpt dateOpt today).get "crops" =
      some (.cropsList (crops.filter
        (nearbyFilter dist lat lon (effectiveRadius radiusOpt)
          (dateOpt.getD today)))) ∧
    (∀ c, c ∈ crops.filter (nearbyFilter dist lat lon
          (effectiveRadius radiusOpt) (dateOpt.getD today)) ↔
        c ∈ crops ∧
        dist lon lat (cropLon c) (cropLat c) ≤
          effectiveRadius radiusOpt * 1000 ∧
        c.floweringStart ≤ dateOpt.getD today ∧
        dateOpt.getD today ≤ c.floweringEnd) := by
  refine ⟨?_, ?_, fun c => ?_⟩
  · by_cases hF : (crops.filter (nearbyFilter dist lat lon
        (effectiveRadius radiusOpt) (dateOpt.getD today))).length = 0 <;>
      simp [findNearby, hv, hF]
  · by_cases hF : (crops.filter (nearbyFilter dist lat lon
        (effectiveRadius radiusOpt) (dateOpt.getD today))).length = 0
    · have hnil := List.length_eq_zero.mp hF
      simp [findNearby, hv, hF, hnil, Response.get]
    · simp [findNearby, hv, hF, Response.get]
  · simp [List.mem_filter, nearbyFilter, Bool.and_eq_true,
      decide_eq_true_eq, and_assoc]

/-- Concrete instance of the nearby-search theorem: with a distance
oracle placing everything at distance 0, a crop flowering on the query
date is returned and one outside its window is not. -/
theorem findNearby_exact_witness :
    nearbyValid 26 75 (none : Option ℚ) = true ∧
    (findNearby (fun _ _ _ _ => 0)
        [⟨"Sunflower", 100, 200, 5, ⟨[75, 26]⟩, 0⟩,
         ⟨"Mustard", 300, 400, 2, ⟨[75, 26]⟩, 0⟩] 26 75 none (some 150)
        0).get "crops" =
      some (.cropsList [⟨"Sunflower", 100, 200, 5, ⟨[75, 26]⟩, 0⟩]) :=
  ⟨by decide, by
    have h := (findNearby_exact (fun _ _ _ _ => 0)
      [⟨"Sunflower", 100, 200, 5, ⟨[75, 26]⟩, 0⟩,
       ⟨"Mustard", 300, 400, 2, ⟨[75, 26]⟩, 0⟩] 26 75 none (some 150) 0
      (by decide)).2.1
    rw [h]
    simp [List.filter, nearbyFilter, cropLon, cropLat, effectiveRadius]⟩

/-- C3: for a hive-add request with valid fields, the request fails with
the 400 conflict error exactly when a hive log with the same `hiveId`
already exists (leaving the store unchanged); otherwise it persists the
record with the server-assigned creation timestamp `now` and answers 201.
Consequently `hiveId` uniqueness across the store is preserved, and the
newly added hive is subsequently retrievable on some page of the hive
list. -/
theorem addHive_spec (hives : List HiveLog) (hiveId : String)
    (datePlaced : Int) (lat lon : ℚ) (numColonies now : Int)
    (hv : validHive hiveId lat lon numColonies = true) :
    ((addHive hives hiveId datePlaced lat lon numColonies now).1 =
        ⟨400, [("error", .s "hiveId must be unique")]⟩ ↔
      ∃ h ∈ hives, h.hiveId = hiveId) ∧
    ((∃ h ∈ hives, h.hiveId = hiveId) →
      (addHive hives hiveId datePlaced lat lon numColonies now).2 =
        hives) ∧
    ((∀ h ∈ hives, h.hiveId ≠ hiveId) →
      (addHive hives hiveId datePlaced lat lon numColonies now).1.status =
        201 ∧
      (addHive hives hiveId datePlaced lat lon numColonies now).2 =
        hives ++ [⟨hiveId, datePlaced, lat, lon, numColonies, now⟩]) ∧
    ((hives.map HiveLog.hiveId).Nodup →
      (((addHive hives hiveId datePlaced lat lon numColonies now).2).map
        HiveLog.hiveId).Nodup) ∧
    ((∀ h ∈ hives, h.hiveId ≠ hiveId) →
      ∃ p, 1 ≤ p ∧
        ⟨hiveId, datePlaced, lat, lon, numColonies, now⟩ ∈
          pageSlice
            (addHive hives hiveId datePlaced lat lon numColonies now).2
            none none p 10 ∧
        (listHives
            (addHive hives hiveId datePlaced lat lon numColonies now).2
            none none (some p) none).get "hives" =
          some (.hivesList (pageSlice
            (addHive hives hiveId datePlaced lat lon numColonies now).2
            none none p 10))) := by
  by_cases hex : hives.any (fun h => h.hiveId == hiveId) = true
  · have hex' : ∃ h ∈ hives, h.hiveId = hiveId := by simpa using hex
    refine ⟨?_, fun _ => ?_, fun hnone => ?_, fun hnd => ?_,
      fun hnone => ?_⟩
    · simp [addHive, hv, hex, hex']
    · simp [addHive, hv, hex]
    · obtain ⟨h, hh, he⟩ := hex'
      exact absurd he (hnone h hh)
    · have hsame :
          (addHive hives hiveId datePlaced lat lon numColonies now).2 =
            hives := by
        simp [addHive, hv, hex]
      rw [hsame]; exact hnd
    · obtain ⟨h, hh, he⟩ := hex'
      exact absurd he (hnone h hh)
  · have hexf : hives.any (fun h => h.hiveId == hiveId) = false :=
      Bool.not_eq_true _ ▸ Bool.of_not_eq_true hex
    have hnone' : ∀ h ∈ hives, h.hiveId ≠ hiveId := by simpa using hexf
    have hstate :
        (addHive hives hiveId datePlaced lat lon numColonies now).2 =
          hives ++ [⟨hiveId, datePlaced, lat, lon, numColonies, now⟩] := by
      simp [addHive, hv, hexf]
    refine ⟨⟨fun habs => ?_, fun hex2 => ?_⟩, fun hex2 => ?_,
      fun _ => ⟨?_, hstate⟩, fun hnd => ?_, fun _ => ?_⟩
    · simp [addHive, hv, hexf] at habs
    · obtain ⟨h, hh, he⟩ := hex2
      exact absurd he (hnone' h hh)
    · obtain ⟨h, hh, he⟩ := hex2
      exact absurd he (hnone' h hh)
    · simp [addHive, hv, hexf]
    · rw [hstate, List.map_append]
      have hnotin : hiveId ∉ hives.map HiveLog.hiveId := by
        intro hmem
        obtain ⟨h, hh, he⟩ := List.mem_map.mp hmem
        exact hnone' h hh he
      simp [List.nodup_append, hnd, hnotin]
    · have hmemState :
          (⟨hiveId, datePlaced, lat, lon, numColonies, now⟩ : HiveLog) ∈
            (addHive hives hiveId datePlaced lat lon numColonies now).2 :=
        by rw [hstate]; simp
      have hquery :
          hivesQuery
            (addHive hives hiveId datePlaced lat lon numColonies now).2
            none none =
          (addHive hives hiveId datePlaced lat lon numColonies now).2 := by
        simp [hivesQuery, hiveMatches]
      have hmemSorted :
          (⟨hiveId, datePlaced, lat, lon, numColonies, now⟩ : HiveLog) ∈
            sortedMatching
              (addHive hives hiveId datePlaced lat lon numColonies now).2
              none none := by
        simp [sortedMatching, hquery, hmemState]
      obtain ⟨p, hp1, hmem⟩ :=
        exists_page_mem _ _ 10 (by norm_num) hmemSorted
      match p, hp1 with
      | p + 1, _ => exact ⟨p + 1, by omega, hmem, rfl⟩

/-- Concrete instances of the hive-add theorem: a duplicate `hiveId` is
rejected with the conflict body, and a fresh one is persisted. -/
theorem addHive_spec_witness :
    (addHive [⟨"HIVE004", 5, 28, 77, 5, 1⟩] "HIVE004" 6 28 77 5 2).1 =
      ⟨400, [("error", .s "hiveId must be unique")]⟩ ∧
    (addHive [] "HIVE004" 5 28 77 5 1).2 = [⟨"HIVE004", 5, 28, 77, 5, 1⟩] :=
  ⟨((addHive_spec [⟨"HIVE004", 5, 28, 77, 5, 1⟩] "HIVE004" 6 28 77 5 2
      (by decide)).1).mpr ⟨⟨"HIVE004", 5, 28, 77, 5, 1⟩, by decide, rfl⟩,
   ((addHive_spec [] "HIVE004" 5 28 77 5 1 (by decide)).2.2.1
      (by decide)).2⟩

/-- C5: the hive list answers 200 with `hives` the date-filtered records
(each inclusive bound applied only when supplied) sorted by `datePlaced`
descending and sliced to the 1-indexed page (page defaulting to 1, page
size to 10), `total` the matching count, and `pages` the ceiling of
`total / pageSize`. -/
theorem listHives_spec (hives : List HiveLog) (sd ed : Option Int)
    (pOpt lOpt : Option Nat) :
    listHives hives sd ed pOpt lOpt =
      ⟨200,
       [("hives", .hivesList (pageSlice hives sd ed (pageOf pOpt 1)
          (pageOf lOpt 10))),
        ("total", .n (hivesQuery hives sd ed).length),
        ("page", .n (pageOf pOpt 1)),
        ("pages", .n (((hivesQuery hives sd ed).length + pageOf lOpt 10
          - 1) / pageOf lOpt 10))]⟩ ∧
    (∀ h, h ∈ sortedMatching hives sd ed ↔
       h ∈ hives ∧ hiveMatches sd ed h = true) ∧
    (sortedMatching hives sd ed).Perm (hivesQuery hives sd ed) ∧
    (∀ h, hiveMatches sd ed h = true ↔
       ((∀ s, sd = some s → s ≤ h.datePlaced) ∧
        (∀ e, ed = some e → h.datePlaced ≤ e))) ∧
    List.Pairwise (fun a b => b.datePlaced ≤ a.datePlaced)
      (pageSlice hives sd ed (pageOf pOpt 1) (pageOf lOpt 10)) ∧
    pageSlice hives sd ed (pageOf pOpt 1) (pageOf lOpt 10) =
      ((sortedMatching hives sd ed).drop
        ((pageOf pOpt 1 - 1) * pageOf lOpt 10)).take (pageOf lOpt 10) ∧
    (∀ h ∈ pageSlice hives sd ed (pageOf pOpt 1) (pageOf lOpt 10),
       h ∈ hives ∧ hiveMatches sd ed h = true) ∧
    ((hivesQuery hives sd ed).length + pageOf lOpt 10 - 1) /
        pageOf lOpt 10 =
      ⌈((hivesQuery hives sd ed).length : ℚ) / (pageOf lOpt 10 : ℚ)⌉₊ ∧
    pageOf (none : Option Nat) 1 = 1 ∧
    pageOf (none : Option Nat) 10 = 10 := by
  refine ⟨rfl, fun h => ?_, List.perm_insertionSort _ _, fun h => ?_,
    ?_, rfl, fun h hm => ?_, ?_, rfl, rfl⟩
  · simp [sortedMatching, hivesQuery, List.mem_filter]
  · cases sd <;> cases ed <;> simp [hiveMatches]
  · exact pairwise_drop_take (List.sorted_insertionSort hiveDescOrder _) _ _
  · have hsub := (List.drop_subset _ _) ((List.take_subset _ _) hm)
    simpa [sortedMatching, hivesQuery, List.mem_filter] using hsub
  · exact add_sub_one_div_eq_ceil _ _ (pageOf_pos lOpt 10 (by norm_num))

/-- Concrete instance of the hive-list theorem: three records listed with
default pagination come back sorted by `datePlaced` descending with one
page. -/
theorem listHives_spec_witness :
    pageSlice
        [⟨"A", 5, 0, 0, 1, 0⟩, ⟨"B", 9, 0, 0, 1, 0⟩, ⟨"C", 7, 0, 0, 1, 0⟩]
        none none 1 10 =
      [⟨"B", 9, 0, 0, 1, 0⟩, ⟨"C", 7, 0, 0, 1, 0⟩, ⟨"A", 5, 0, 0, 1, 0⟩] ∧
    (listHives
        [⟨"A", 5, 0, 0, 1, 0⟩, ⟨"B", 9, 0, 0, 1, 0⟩, ⟨"C", 7, 0, 0, 1, 0⟩]
        none none none none).get "pages" = some (.n 1) ∧
    (∀ h ∈ pageSlice
        [⟨"A", 5, 0, 0, 1, 0⟩, ⟨"B", 9, 0, 0, 1, 0⟩, ⟨"C", 7, 0, 0, 1, 0⟩]
        none none 1 10,
      h ∈ [⟨"A", 5, 0, 0, 1, 0⟩, ⟨"B", 9, 0, 0, 1, 0⟩,
        ⟨"C", 7, 0, 0, 1, 0⟩] ∧ hiveMatches none none h = true) :=
  ⟨by decide, by decide,
   fun h hm =>
     (listHives_spec
       [⟨"A", 5, 0, 0, 1, 0⟩, ⟨"B", 9, 0, 0, 1, 0⟩, ⟨"C", 7, 0, 0, 1, 0⟩]
       none none none none).2.2.2.2.2.2.1 h hm⟩

end BeeTrail
